import Mathlib

/-!
# Verification of the `DesktopSpeedMenu` positioning engine

Shallow embedding of `src/components/player/desktop/DesktopSpeedMenu.tsx`:
the dual-coordinate-system positioning engine of a floating speed menu.

JS numbers are modelled as rationals (`ℚ`), DOM references as `Option`,
and the JS value lattice around `?.` / `!==` with an explicit three-valued
result type where the source relies on it.
-/

namespace DesktopSpeedMenu

/-- Viewport-coordinate bounding rectangle of the trigger button, as
returned by `getBoundingClientRect()` (only the fields the source reads). -/
structure Rect where
  top : ℚ
  bottom : ℚ
  right : ℚ
deriving DecidableEq, Repr

/-- A node of the `offsetParent` chain walked in rotated mode (source
lines 87–95).  `container` marks the anchor container (`containerRef.current`),
at which the walk stops; `node t l` is any other element with its
`offsetTop` / `offsetLeft`. -/
inductive DomNode where
  | container : DomNode
  | node : ℚ → ℚ → DomNode
deriving DecidableEq, Repr

/-- The trigger button element (`buttonRef.current`).  `offsetChain` is its
`offsetParent` chain starting at the button itself (the source loop begins
with `el = buttonRef.current` and adds `el.offsetTop`/`el.offsetLeft`
before stepping to `el.offsetParent`). -/
structure ButtonEl where
  rect : Rect
  offsetHeight : ℚ
  offsetWidth : ℚ
  offsetChain : List DomNode
deriving DecidableEq, Repr

/-- The anchor container element (`containerRef.current`).  `classChain`
lists the class lists of the element and its ancestors, which is what
`closest('.is-web-fullscreen')` inspects. -/
structure ContainerEl where
  offsetHeight : ℚ
  classChain : List (List String)
deriving DecidableEq, Repr

/-- The DOM environment observed by the component: element references
(`none` = not mounted / `null`), viewport height, `document.fullscreenElement`
presence and `typeof document !== "undefined"`. -/
structure World where
  buttonRef : Option ButtonEl
  containerRef : Option ContainerEl
  menuRefHeight : Option ℚ
  viewportHeight : ℚ
  fullscreenElement : Bool
  docDefined : Bool
deriving DecidableEq, Repr

/-- The `menuPosition` state (source line 29).  `maxHeight = none` models
the initial CSS string value `"none"`; `some q` models `"${q}px"`. -/
structure MenuPosition where
  top : ℚ
  left : ℚ
  maxHeight : Option ℚ
  openUpward : Bool
deriving DecidableEq, Repr

/-- Initial `menuPosition` state: `{ top: 0, left: 0, maxHeight: 'none', openUpward: false }`. -/
def initialMenuPosition : MenuPosition :=
  { top := 0, left := 0, maxHeight := none, openUpward := false }

/-- `const estimatedMenuHeight = 250` (source lines 66 and 104). -/
def estimatedMenuHeight : ℚ := 250

/-- `menuRef.current?.offsetHeight || estimatedMenuHeight`: an unmounted
menu gives `undefined`, and both `undefined` and `0` are falsy, so either
falls back to the 250 estimate. -/
def actualMenuHeightOf (menuRefHeight : Option ℚ) : ℚ :=
  match menuRefHeight with
  | none => estimatedMenuHeight
  | some h => if h = 0 then estimatedMenuHeight else h

/-- `const spaceBelow = viewportHeight - buttonRect.bottom - 10` (line 63). -/
def normalSpaceBelow (viewportHeight : ℚ) (buttonRect : Rect) : ℚ :=
  viewportHeight - buttonRect.bottom - 10

/-- `const spaceAbove = buttonRect.top - 10` (line 64). -/
def normalSpaceAbove (buttonRect : Rect) : ℚ :=
  buttonRect.top - 10

/-- `const spaceBelow = containerHeight - (top + buttonHeight) - 20` (line 101). -/
def rotatedSpaceBelow (containerHeight top buttonHeight : ℚ) : ℚ :=
  containerHeight - (top + buttonHeight) - 20

/-- `const spaceAbove = top - 20` (line 102). -/
def rotatedSpaceAbove (top : ℚ) : ℚ :=
  top - 20

/-- The rotated-mode offset accumulation loop (lines 87–95):
`while (el && el !== containerRef.current) { top += el.offsetTop; left += el.offsetLeft; el = el.offsetParent }`.
The list is the chain from the button upward; the walk stops at the
container marker or at the end of the chain (`el === null`). -/
def offsetWalk (top left : ℚ) : List DomNode → ℚ × ℚ
  | [] => (top, left)
  | DomNode.container :: _ => (top, left)
  | DomNode.node t l :: rest => offsetWalk (top + t) (left + l) rest

/-- Normal-mode placement (source lines 54–81): viewport coordinates from
`getBoundingClientRect`, portal to `document.body`. -/
def calcNormal (button : ButtonEl) (viewportHeight : ℚ) (menuRefHeight : Option ℚ) :
    MenuPosition :=
  let buttonRect := button.rect
  let spaceBelow := normalSpaceBelow viewportHeight buttonRect
  let spaceAbove := normalSpaceAbove buttonRect
  let actualMenuHeight := actualMenuHeightOf menuRefHeight
  let openUpward := decide (spaceBelow < min actualMenuHeight 200) &&
    decide (spaceAbove > spaceBelow)
  let maxHeight := if openUpward then min spaceAbove actualMenuHeight
    else min spaceBelow (viewportHeight * (7 / 10))
  { top := if openUpward then buttonRect.top - 10 else buttonRect.bottom + 10,
    left := buttonRect.right,
    maxHeight := some maxHeight,
    openUpward := openUpward }

/-- Rotated-mode placement (source lines 82–126): container coordinates
via the offset loop, portal to the container. -/
def calcRotated (button : ButtonEl) (container : ContainerEl) (menuRefHeight : Option ℚ) :
    MenuPosition :=
  let tl := offsetWalk 0 0 button.offsetChain
  let top := tl.1
  let left := tl.2
  let buttonHeight := button.offsetHeight
  let buttonWidth := button.offsetWidth
  let containerHeight := container.offsetHeight
  let spaceBelow := rotatedSpaceBelow containerHeight top buttonHeight
  let spaceAbove := rotatedSpaceAbove top
  let actualMenuHeight := actualMenuHeightOf menuRefHeight
  let openUpward := decide (spaceBelow < min actualMenuHeight 200) &&
    decide (spaceAbove > spaceBelow)
  let maxHeight := if openUpward then min spaceAbove actualMenuHeight
    else min spaceBelow (containerHeight * (7 / 10))
  if openUpward then
    { top := top - 10, left := left + buttonWidth, maxHeight := some maxHeight,
      openUpward := true }
  else
    { top := top + buttonHeight + 10, left := left + buttonWidth, maxHeight := some maxHeight,
      openUpward := false }

/-- `calculateMenuPosition` (source lines 51–128) as a state transformer on
the stored `menuPosition`: the guard at line 52
(`if (!buttonRef.current || !containerRef.current) return;`) makes it a
no-op when either reference is absent. -/
def calculateMenuPosition (isRotated : Bool) (w : World) (mp : MenuPosition) :
    MenuPosition :=
  match w.buttonRef, w.containerRef with
  | some b, some c =>
      if isRotated then calcRotated b c w.menuRefHeight
      else calcNormal b w.viewportHeight w.menuRefHeight
  | _, _ => mp

/-- The CSS class the fullscreen check looks for. -/
def webFullscreenClass : String := "is-web-fullscreen"

/-- Result of `containerRef.current?.closest('.is-web-fullscreen')` in the
JS value lattice: `undef` when `containerRef.current` is `null` (optional
chaining short-circuits to `undefined`), `nullRes` when no matching
ancestor exists, `found` when one does. -/
inductive ClosestResult where
  | undef
  | nullRes
  | found
deriving DecidableEq, Repr

/-- `containerRef.current?.closest('.is-web-fullscreen')` (source line 37). -/
def closestWebFullscreen (containerRef : Option ContainerEl) : ClosestResult :=
  match containerRef with
  | none => ClosestResult.undef
  | some c =>
      if c.classChain.any (fun cls => webFullscreenClass ∈ cls) then ClosestResult.found
      else ClosestResult.nullRes

/-- JS strict inequality `x !== null` on the result: `undefined !== null`
is `true` (strict comparison performs no coercion). -/
def strictNeNull : ClosestResult → Bool
  | ClosestResult.nullRes => false
  | _ => true

/-- The value `updateFullscreen` stores (source lines 34–39):
`nativeFullscreen || windowFullscreen` where
`windowFullscreen = containerRef.current?.closest('.is-web-fullscreen') !== null`. -/
def updateFullscreenValue (w : World) : Bool :=
  w.fullscreenElement || strictNeNull (closestWebFullscreen w.containerRef)

/-- The two possible portal injection targets of line 226. -/
inductive PortalTarget where
  | containerEl
  | documentBody
deriving DecidableEq, Repr

/-- Line 226:
`showSpeedMenu && typeof document !== 'undefined' && createPortal(MenuContent, (isRotated && containerRef.current) ? containerRef.current : document.body)`.
`none` means the portal is not rendered at all; otherwise the target is the
container exactly when `isRotated` is set and the container reference is
non-null, and `document.body` in every other case. -/
def portalRender (showSpeedMenu docDefined isRotated : Bool)
    (containerRef : Option ContainerEl) : Option PortalTarget :=
  if showSpeedMenu && docDefined then
    some (match isRotated, containerRef with
      | true, some _ => PortalTarget.containerEl
      | _, _ => PortalTarget.documentBody)
  else none

/-- Component state: the open/closed flag (the `showSpeedMenu` prop,
toggled through `onToggleSpeedMenu`), the stored `menuPosition`, and the
tracked `isFullscreen` flag. -/
structure SpeedMenuState where
  showSpeedMenu : Bool
  menuPosition : MenuPosition
  isFullscreen : Bool
deriving DecidableEq, Repr

/-- Initial state: menu closed, `menuPosition` at its initial value,
`isFullscreen` false (line 31). -/
def initState : SpeedMenuState :=
  { showSpeedMenu := false, menuPosition := initialMenuPosition, isFullscreen := false }

/-- `handleToggle` (lines 152–157): recompute placement when currently
closed, then invoke `onToggleSpeedMenu`, which flips the flag. -/
def handleToggle (isRotated : Bool) (w : World) (s : SpeedMenuState) : SpeedMenuState :=
  let s' := if !s.showSpeedMenu then
      { s with menuPosition := calculateMenuPosition isRotated w s.menuPosition }
    else s
  { s' with showSpeedMenu := !s'.showSpeedMenu }

/-- `handleScroll` (lines 133–142): the listener exists only while the menu
is open and calls `onToggleSpeedMenu()`; it touches no geometry. -/
def handleScroll (s : SpeedMenuState) : SpeedMenuState :=
  if s.showSpeedMenu then { s with showSpeedMenu := false } else s

/-- Events driving the component: a trigger click (`handleToggle`), a
scroll notification, the open-effect / 50 ms settle recomputation
(lines 144–150), and an `updateFullscreen` run (fullscreenchange event,
500 ms poll, or the initial call — lines 40–43). -/
inductive Event where
  | toggle
  | scroll
  | settle
  | fullscreenPoll
deriving DecidableEq, Repr

/-- One step of the component under a fixed observed environment. -/
def step (isRotated : Bool) (w : World) (s : SpeedMenuState) : Event → SpeedMenuState
  | Event.toggle => handleToggle isRotated w s
  | Event.scroll => handleScroll s
  | Event.settle =>
      if s.showSpeedMenu then
        { s with menuPosition := calculateMenuPosition isRotated w s.menuPosition }
      else s
  | Event.fullscreenPoll => { s with isFullscreen := updateFullscreenValue w }

/-- Run a sequence of events. -/
def run (isRotated : Bool) (w : World) (es : List Event) (s : SpeedMenuState) :
    SpeedMenuState :=
  es.foldl (step isRotated w) s

/-- The portal target rendered in state `s` (line 226 read off the state). -/
def renderedPortalTarget (isRotated : Bool) (w : World) (s : SpeedMenuState) :
    Option PortalTarget :=
  portalRender s.showSpeedMenu w.docDefined isRotated w.containerRef

/-- Replace exactly the two fullscreen signals of an environment: the
native `document.fullscreenElement` presence and the marker-class chain of
the (mounted) anchor container.  Everything else is untouched. -/
def setFsSignals (w : World) (fs : Bool) (cls : List (List String)) : World :=
  { w with fullscreenElement := fs,
           containerRef := w.containerRef.map (fun c => { c with classChain := cls }) }

/-! ## Spec-side definitions (for refinement claims)

These follow the wording of the specification, to be compared with the
definitions translated from the source. -/

/-- Spec-side (C6), normal mode: "Space below = viewport height −
rect.bottom − a fixed margin (10 units); space above = rect.top − the same
margin."  Returned as `(above, below)`. -/
def specNormalSpaces (viewportHeight : ℚ) (rect : Rect) : ℚ × ℚ :=
  (rect.top - 10, viewportHeight - rect.bottom - 10)

/-- Spec-side (C6), rotated mode: "spaceBelow = container height −
(accumulated top + trigger height) − 20 and spaceAbove = accumulated top
− 20."  Returned as `(above, below)`. -/
def specRotatedSpaces (containerHeight accTop triggerHeight : ℚ) : ℚ × ℚ :=
  (accTop - 20, containerHeight - (accTop + triggerHeight) - 20)

/-! ## Helper lemmas -/

/-- The accumulated top coordinate of the rotated-mode offset walk. -/
def rotatedTop (b : ButtonEl) : ℚ := (offsetWalk 0 0 b.offsetChain).1

lemma calcNormal_openUpward (b : ButtonEl) (vh : ℚ) (m : Option ℚ) :
    (calcNormal b vh m).openUpward =
      (decide (normalSpaceBelow vh b.rect < min (actualMenuHeightOf m) 200) &&
       decide (normalSpaceAbove b.rect > normalSpaceBelow vh b.rect)) := rfl

lemma calcNormal_maxHeight (b : ButtonEl) (vh : ℚ) (m : Option ℚ) :
    (calcNormal b vh m).maxHeight =
      some (if (calcNormal b vh m).openUpward
        then min (normalSpaceAbove b.rect) (actualMenuHeightOf m)
        else min (normalSpaceBelow vh b.rect) (vh * (7 / 10))) := rfl

lemma calcRotated_openUpward (b : ButtonEl) (c : ContainerEl) (m : Option ℚ) :
    (calcRotated b c m).openUpward =
      (decide (rotatedSpaceBelow c.offsetHeight (rotatedTop b) b.offsetHeight <
          min (actualMenuHeightOf m) 200) &&
       decide (rotatedSpaceAbove (rotatedTop b) >
          rotatedSpaceBelow c.offsetHeight (rotatedTop b) b.offsetHeight)) := by
  unfold calcRotated rotatedTop
  simp only []
  split <;> simp_all

lemma calcRotated_maxHeight (b : ButtonEl) (c : ContainerEl) (m : Option ℚ) :
    (calcRotated b c m).maxHeight =
      some (if (calcRotated b c m).openUpward
        then min (rotatedSpaceAbove (rotatedTop b)) (actualMenuHeightOf m)
        else min (rotatedSpaceBelow c.offsetHeight (rotatedTop b) b.offsetHeight)
          (c.offsetHeight * (7 / 10))) := by
  rw [calcRotated_openUpward]
  unfold calcRotated rotatedTop
  simp only []
  split <;> simp_all

/-! ## Claims -/

/-- C1: for every spaceAbove, spaceBelow and actualHeight (the measured
menu height, or 250 when unmeasured), the placement decision opens the
menu upward if and only if spaceBelow < min(actualHeight, 200) AND
spaceAbove > spaceBelow; otherwise it opens downward.  The decision rule
is literally the same in normal mode and in rotated mode. -/
theorem openUpward_decision_rule (b : ButtonEl) (c : ContainerEl) (vh : ℚ) (m : Option ℚ) :
    ((calcNormal b vh m).openUpward = true ↔
      (normalSpaceBelow vh b.rect < min (actualMenuHeightOf m) 200 ∧
       normalSpaceAbove b.rect > normalSpaceBelow vh b.rect))
    ∧ ((calcRotated b c m).openUpward = true ↔
      (rotatedSpaceBelow c.offsetHeight (rotatedTop b) b.offsetHeight <
         min (actualMenuHeightOf m) 200 ∧
       rotatedSpaceAbove (rotatedTop b) >
         rotatedSpaceBelow c.offsetHeight (rotatedTop b) b.offsetHeight)) := by
  rw [calcNormal_openUpward, calcRotated_openUpward]
  constructor <;> simp [Bool.and_eq_true, decide_eq_true_eq]

/-- C5: `maxHeight` equals `min(spaceAbove, actualHeight)` when opening
upward and `min(spaceBelow, 70% of the viewport height in normal mode /
70% of the container height in rotated mode)` when opening downward; it
therefore never exceeds the chosen side's available space, nor the 70%
ceiling when opening downward. -/
theorem maxHeight_clamp (b : ButtonEl) (c : ContainerEl) (vh : ℚ) (m : Option ℚ) :
    ((calcNormal b vh m).maxHeight =
       some (if (calcNormal b vh m).openUpward
         then min (normalSpaceAbove b.rect) (actualMenuHeightOf m)
         else min (normalSpaceBelow vh b.rect) (vh * (7 / 10))))
    ∧ ((calcNormal b vh m).maxHeight.getD 0 ≤
        (if (calcNormal b vh m).openUpward then normalSpaceAbove b.rect
         else min (normalSpaceBelow vh b.rect) (vh * (7 / 10))))
    ∧ ((calcRotated b c m).maxHeight =
       some (if (calcRotated b c m).openUpward
         then min (rotatedSpaceAbove (rotatedTop b)) (actualMenuHeightOf m)
         else min (rotatedSpaceBelow c.offsetHeight (rotatedTop b) b.offsetHeight)
           (c.offsetHeight * (7 / 10))))
    ∧ ((calcRotated b c m).maxHeight.getD 0 ≤
        (if (calcRotated b c m).openUpward then rotatedSpaceAbove (rotatedTop b)
         else min (rotatedSpaceBelow c.offsetHeight (rotatedTop b) b.offsetHeight)
           (c.offsetHeight * (7 / 10)))) := by
  refine ⟨calcNormal_maxHeight b vh m, ?_, calcRotated_maxHeight b c m, ?_⟩
  · rw [calcNormal_maxHeight]
    cases (calcNormal b vh m).openUpward <;> simp [min_le_left]
  · rw [calcRotated_maxHeight]
    cases (calcRotated b c m).openUpward <;> simp [min_le_left]

/-- C6: the available-space formulas of the source coincide with the
spec's formulas: normal mode uses `viewport height − rect.bottom − 10`
below and `rect.top − 10` above; rotated mode uses `container height −
(accumulated top + trigger height) − 20` below and `accumulated top − 20`
above. -/
theorem space_formulas_refine_spec (vh : ℚ) (rect : Rect)
    (containerHeight accTop triggerHeight : ℚ) :
    (normalSpaceAbove rect, normalSpaceBelow vh rect) = specNormalSpaces vh rect
    ∧ (rotatedSpaceAbove accTop, rotatedSpaceBelow containerHeight accTop triggerHeight) =
        specRotatedSpaces containerHeight accTop triggerHeight := ⟨rfl, rfl⟩

lemma offsetWalk_to_container (a l : ℚ) (nodes : List (ℚ × ℚ)) (rest : List DomNode) :
    offsetWalk a l (nodes.map (fun p => DomNode.node p.1 p.2) ++ DomNode.container :: rest) =
      (a + (nodes.map Prod.fst).sum, l + (nodes.map Prod.snd).sum) := by
  induction nodes generalizing a l with
  | nil => simp [offsetWalk]
  | cons hd tl ih => simp [offsetWalk, ih, add_assoc]

/-- C7: in rotated mode, the accumulated (top, left) anchor position
equals the componentwise sum of offsetTop/offsetLeft over the
offset-parent chain from the trigger (inclusive) up to the anchor
container (exclusive). -/
theorem offset_accumulation_sum (nodes : List (ℚ × ℚ)) (rest : List DomNode) :
    offsetWalk 0 0 (nodes.map (fun p => DomNode.node p.1 p.2) ++ DomNode.container :: rest) =
      ((nodes.map Prod.fst).sum, (nodes.map Prod.snd).sum) := by
  rw [offsetWalk_to_container]
  simp

/-- C2 (bug evidence): with the anchor container reference absent
(`containerRef.current === null`) and no native fullscreen element, the
stored fullscreen value is `true`, not `false`: optional chaining yields
`undefined`, and `undefined !== null` is `true`. -/
theorem updateFullscreen_nullRef_eval :
    updateFullscreenValue
      { buttonRef := none, containerRef := none, menuRefHeight := none,
        viewportHeight := 800, fullscreenElement := false, docDefined := true } = true := rfl

/-- C3 (counterexample): in rotated mode, with the menu open and the
anchor container not yet mounted, the menu is rendered — into
`document.body` — instead of being deferred; so the injection target is
not the container even though the mode is Rotated, and rendering is not
deferred. -/
theorem portal_rotated_unmounted_fallback :
    portalRender true true true none = some PortalTarget.documentBody ∧
    portalRender true true true none ≠ none := by
  exact ⟨rfl, by decide⟩

/-- C3 (amended): whenever the menu renders (open flag set and `document`
defined), the injection target is the anchor container exactly when the
mode is Rotated AND the container is mounted; in every other case —
including rotated mode before the container mounts — it is the document
root.  Rendering is never deferred for the container. -/
theorem portal_target_rule (sm dd rot : Bool) (cref : Option ContainerEl) :
    portalRender sm dd rot cref =
      (if sm && dd then
        some (if rot && cref.isSome then PortalTarget.containerEl
          else PortalTarget.documentBody)
       else none) := by
  unfold portalRender
  cases cref <;> cases rot <;> simp

/-- C8: if either the trigger reference or the anchor container reference
is unavailable when placement is recomputed, the recomputation is a no-op:
the stored placement is returned unchanged. -/
theorem missing_ref_noop (isRotated : Bool) (w : World) (mp : MenuPosition)
    (h : w.buttonRef = none ∨ w.containerRef = none) :
    calculateMenuPosition isRotated w mp = mp := by
  unfold calculateMenuPosition
  cases hb : w.buttonRef <;> cases hc : w.containerRef <;> simp_all

/-- A concrete environment with both references unmounted. -/
def wMissing : World :=
  { buttonRef := none, containerRef := none, menuRefHeight := none,
    viewportHeight := 800, fullscreenElement := false, docDefined := true }

/-- Witness for C8 at a concrete input. -/
theorem missing_ref_noop_witness :
    (wMissing.buttonRef = none ∨ wMissing.containerRef = none) ∧
      calculateMenuPosition false wMissing initialMenuPosition = initialMenuPosition :=
  ⟨Or.inl rfl, missing_ref_noop false wMissing initialMenuPosition (Or.inl rfl)⟩

/-- C9: from any state with the menu open, a scroll event leads to the
closed state — independently of any scroll parameters, which the handler
never reads — and the stored placement is untouched (no geometry
recompute). -/
theorem scroll_closes_open_menu (isRotated : Bool) (w : World) (s : SpeedMenuState)
    (h : s.showSpeedMenu = true) :
    (step isRotated w s Event.scroll).showSpeedMenu = false ∧
    (step isRotated w s Event.scroll).menuPosition = s.menuPosition := by
  simp [step, handleScroll, h]

/-- A concrete open state. -/
def sOpen : SpeedMenuState :=
  { showSpeedMenu := true, menuPosition := initialMenuPosition, isFullscreen := false }

/-- Witness for C9 at a concrete input. -/
theorem scroll_closes_open_menu_witness :
    sOpen.showSpeedMenu = true ∧
      ((step false wMissing sOpen Event.scroll).showSpeedMenu = false ∧
       (step false wMissing sOpen Event.scroll).menuPosition = sOpen.menuPosition) :=
  ⟨rfl, scroll_closes_open_menu false wMissing sOpen rfl⟩

lemma calculateMenuPosition_idem (isRotated : Bool) (w : World) (mp : MenuPosition) :
    calculateMenuPosition isRotated w (calculateMenuPosition isRotated w mp) =
      calculateMenuPosition isRotated w mp := by
  unfold calculateMenuPosition
  cases w.buttonRef <;> cases w.containerRef <;> simp

/-- C10: from an open state under a fixed observed geometry, closing and
reopening twice yields the same placement both times — the placement
computation is a deterministic, idempotent function of the observed
geometry (second conjunct). -/
theorem reopen_placement_idempotent (isRotated : Bool) (w : World) (s : SpeedMenuState)
    (h : s.showSpeedMenu = true) :
    (step isRotated w (step isRotated w s Event.toggle) Event.toggle).menuPosition =
      (step isRotated w
        (step isRotated w
          (step isRotated w (step isRotated w s Event.toggle) Event.toggle) Event.toggle)
        Event.toggle).menuPosition ∧
    calculateMenuPosition isRotated w (calculateMenuPosition isRotated w s.menuPosition) =
      calculateMenuPosition isRotated w s.menuPosition := by
  refine ⟨?_, calculateMenuPosition_idem isRotated w s.menuPosition⟩
  simp [step, handleToggle, h, calculateMenuPosition_idem]

/-- Witness for C10 at a concrete input. -/
theorem reopen_placement_idempotent_witness :
    sOpen.showSpeedMenu = true ∧
      ((step false wMissing (step false wMissing sOpen Event.toggle) Event.toggle).menuPosition =
        (step false wMissing
          (step false wMissing
            (step false wMissing (step false wMissing sOpen Event.toggle) Event.toggle)
            Event.toggle) Event.toggle).menuPosition ∧
       calculateMenuPosition false wMissing
         (calculateMenuPosition false wMissing sOpen.menuPosition) =
         calculateMenuPosition false wMissing sOpen.menuPosition) :=
  ⟨rfl, reopen_placement_idempotent false wMissing sOpen rfl⟩

lemma calculateMenuPosition_setFsSignals (isRotated fs : Bool) (cls : List (List String))
    (w : World) (mp : MenuPosition) :
    calculateMenuPosition isRotated (setFsSignals w fs cls) mp =
      calculateMenuPosition isRotated w mp := by
  unfold calculateMenuPosition setFsSignals
  cases w.buttonRef <;> cases w.containerRef <;> simp [calcRotated]

lemma step_fs_equiv (isRotated fs : Bool) (cls : List (List String)) (w : World)
    (e : Event) (s s' : SpeedMenuState)
    (hshow : s'.showSpeedMenu = s.showSpeedMenu)
    (hmp : s'.menuPosition = s.menuPosition) :
    (step isRotated (setFsSignals w fs cls) s' e).showSpeedMenu =
      (step isRotated w s e).showSpeedMenu ∧
    (step isRotated (setFsSignals w fs cls) s' e).menuPosition =
      (step isRotated w s e).menuPosition := by
  cases e <;>
    simp [step, handleToggle, handleScroll, hshow, hmp,
      calculateMenuPosition_setFsSignals] <;>
    cases hs : s.showSpeedMenu <;> simp_all

lemma run_fs_equiv (isRotated fs : Bool) (cls : List (List String)) (w : World)
    (es : List Event) :
    ∀ s s' : SpeedMenuState, s'.showSpeedMenu = s.showSpeedMenu →
      s'.menuPosition = s.menuPosition →
      (run isRotated (setFsSignals w fs cls) es s').showSpeedMenu =
        (run isRotated w es s).showSpeedMenu ∧
      (run isRotated (setFsSignals w fs cls) es s').menuPosition =
        (run isRotated w es s).menuPosition := by
  induction es with
  | nil => intro s s' h1 h2; exact ⟨h1, h2⟩
  | cons e es ih =>
      intro s s' h1 h2
      have hstep := step_fs_equiv isRotated fs cls w e s s' h1 h2
      exact ih (step isRotated w s e) (step isRotated (setFsSignals w fs cls) s' e)
        hstep.1 hstep.2

lemma portalRender_eq_of_isSome (sm dd rot : Bool) {c c' : Option ContainerEl}
    (h : c.isSome = c'.isSome) :
    portalRender sm dd rot c = portalRender sm dd rot c' := by
  unfold portalRender
  cases c <;> cases c' <;> cases rot <;> simp_all

/-- C4: the tracked fullscreen flag is write-only.  Two executions of the
component over the same event sequence, in environments identical except
for the native-fullscreen signal and the marker-class chain of the anchor
container, agree on the open/closed flag, on the entire stored placement
(top, left, maxHeight, openUpward), and on the rendered portal target:
no decision reads `isFullscreen`. -/
theorem fullscreen_noninterference (isRotated fs : Bool) (cls : List (List String))
    (w : World) (es : List Event) :
    (run isRotated (setFsSignals w fs cls) es initState).showSpeedMenu =
      (run isRotated w es initState).showSpeedMenu ∧
    (run isRotated (setFsSignals w fs cls) es initState).menuPosition =
      (run isRotated w es initState).menuPosition ∧
    renderedPortalTarget isRotated (setFsSignals w fs cls)
        (run isRotated (setFsSignals w fs cls) es initState) =
      renderedPortalTarget isRotated w (run isRotated w es initState) := by
  obtain ⟨h1, h2⟩ := run_fs_equiv isRotated fs cls w es initState initState rfl rfl
  refine ⟨h1, h2, ?_⟩
  unfold renderedPortalTarget
  rw [h1, show (setFsSignals w fs cls).docDefined = w.docDefined from rfl]
  exact portalRender_eq_of_isSome _ _ _ (by simp [setFsSignals])

end DesktopSpeedMenu
